import Mathlib

/-!
Shallow embedding of the vscode-todo extension panel
(src/panels/HelloWorldPanel.ts) and its message dispatch bridge.

The repository ships a single source file, HelloWorldPanel.ts.  Types and
values it imports from sibling modules (src/todo/todoTypes.ts,
src/todo/store.ts, src/panels/message.ts) are not part of the sources; the
definitions below that come from those modules are modelled from the spec
and say so in their doc comments.  Everything else is translated directly
from HelloWorldPanel.ts.
-/

namespace VscodeTodo

/-- Modelled from the spec: the TodoScope enum of src/todo/todoTypes.ts
(file not in the sources).  The spec describes a two-level scope,
user vs. workspace. -/
inductive TodoScope where
  | user
  | workspace
deriving DecidableEq, Fintype

/-- Modelled from the spec: the five action names shared by the
MessageActionsFromWebview enum of src/panels/message.ts and the action
creator sets of src/todo/store.ts (files not in the sources).  The five
names are the ones the message listener of HelloWorldPanel.ts switches
over. -/
inductive TodoActionName where
  | addTodo
  | deleteTodo
  | toggleTodo
  | editTodo
  | reorderTodo
deriving DecidableEq, Fintype

/-- The scope field of an inbound webview message.  Messages arrive from
the webview as arbitrary JSON, so the runtime value may be outside the
TodoScope enum; an out-of-enum value is represented by an unknown tag. -/
inductive RawScope where
  | known (s : TodoScope)
  | unknown (tag : Nat)
deriving DecidableEq

/-- The type field of an inbound webview message; as with the scope, the
runtime value may be outside the enum of known action names. -/
inductive RawType where
  | known (t : TodoActionName)
  | unknown (tag : Nat)
deriving DecidableEq

/-- An inbound webview message.  The listener of HelloWorldPanel.ts reads
only the scope, type and payload fields; since the message is an arbitrary
JSON object it may carry additional properties, represented here by the
extra field. -/
structure Message (α : Type) where
  scope : RawScope
  type : RawType
  payload : α
  extra : Nat
deriving DecidableEq

/-- A store action: what a call to an action creator of
src/todo/store.ts produces.  Modelled from the spec: each creator belongs
to a scope (it targets the user or the workspace slice), carries its own
name, and is applied to a payload. -/
structure StoreAction (α : Type) where
  scope : TodoScope
  name : TodoActionName
  payload : α
deriving DecidableEq

/-- An action set as exported by src/todo/store.ts: one creator per
action name. -/
structure ActionSet (α : Type) where
  addTodo : α → StoreAction α
  deleteTodo : α → StoreAction α
  toggleTodo : α → StoreAction α
  editTodo : α → StoreAction α
  reorderTodo : α → StoreAction α

/-- Modelled from the spec: the userActions export of src/todo/store.ts
(file not in the sources), the action set whose creators produce actions
on the user slice. -/
def userActions (α : Type) : ActionSet α where
  addTodo := fun p => ⟨TodoScope.user, TodoActionName.addTodo, p⟩
  deleteTodo := fun p => ⟨TodoScope.user, TodoActionName.deleteTodo, p⟩
  toggleTodo := fun p => ⟨TodoScope.user, TodoActionName.toggleTodo, p⟩
  editTodo := fun p => ⟨TodoScope.user, TodoActionName.editTodo, p⟩
  reorderTodo := fun p => ⟨TodoScope.user, TodoActionName.reorderTodo, p⟩

/-- Modelled from the spec: the workspaceActions export of
src/todo/store.ts (file not in the sources), the action set whose creators
produce actions on the workspace slice. -/
def workspaceActions (α : Type) : ActionSet α where
  addTodo := fun p => ⟨TodoScope.workspace, TodoActionName.addTodo, p⟩
  deleteTodo := fun p => ⟨TodoScope.workspace, TodoActionName.deleteTodo, p⟩
  toggleTodo := fun p => ⟨TodoScope.workspace, TodoActionName.toggleTodo, p⟩
  editTodo := fun p => ⟨TodoScope.workspace, TodoActionName.editTodo, p⟩
  reorderTodo := fun p => ⟨TodoScope.workspace, TodoActionName.reorderTodo, p⟩

/-- The observable effects of one run of the webview message handler:
the actions dispatched to the store and the console error logs. -/
structure HandlerEffects (α : Type) where
  dispatched : List (StoreAction α)
  errors : List String
deriving DecidableEq

/-- Lines 182 to 190 of HelloWorldPanel.ts: select the store action set
from the message scope; user picks userActions, workspace picks
workspaceActions, anything else falls through to the error branch. -/
def selectStoreActions (α : Type) : RawScope → Option (ActionSet α)
  | RawScope.known TodoScope.user => some (userActions α)
  | RawScope.known TodoScope.workspace => some (workspaceActions α)
  | RawScope.unknown _ => none

/-- Lines 179 to 224 of HelloWorldPanel.ts: the webview message listener.
It first selects the action set by scope (logging an error and returning
when the scope is not recognized), then switches on the message type,
dispatching the same-named creator applied to the payload, with a default
branch that only logs an error. -/
def webviewMessageHandler {α : Type} (message : Message α) : HandlerEffects α :=
  match selectStoreActions α message.scope with
  | none => { dispatched := [], errors := ["Action scope not found"] }
  | some storeActions =>
    match message.type with
    | RawType.known TodoActionName.addTodo =>
        { dispatched := [storeActions.addTodo message.payload], errors := [] }
    | RawType.known TodoActionName.deleteTodo =>
        { dispatched := [storeActions.deleteTodo message.payload], errors := [] }
    | RawType.known TodoActionName.toggleTodo =>
        { dispatched := [storeActions.toggleTodo message.payload], errors := [] }
    | RawType.known TodoActionName.editTodo =>
        { dispatched := [storeActions.editTodo message.payload], errors := [] }
    | RawType.known TodoActionName.reorderTodo =>
        { dispatched := [storeActions.reorderTodo message.payload], errors := [] }
    | RawType.unknown _ =>
        { dispatched := [], errors := ["Action not found"] }

/-- The action set a given (recognized) scope selects. -/
def scopeActionSet (α : Type) : TodoScope → ActionSet α
  | TodoScope.user => userActions α
  | TodoScope.workspace => workspaceActions α

/-- Apply the creator of a given name from a given action set. -/
def applyCreator {α : Type} (A : ActionSet α) : TodoActionName → α → StoreAction α
  | TodoActionName.addTodo, p => A.addTodo p
  | TodoActionName.deleteTodo, p => A.deleteTodo p
  | TodoActionName.toggleTodo, p => A.toggleTodo p
  | TodoActionName.editTodo, p => A.editTodo p
  | TodoActionName.reorderTodo, p => A.reorderTodo p

/-- Fold an arbitrary store reducer over the actions a handler run
dispatched: the resulting store state. -/
def applyDispatched {α σ : Type} (red : σ → StoreAction α → σ) (st : σ)
    (eff : HandlerEffects α) : σ :=
  eff.dispatched.foldl red st

/-- The full store state, as store.getState() returns it: one slice per
scope.  The slice type itself is external to this repository and is kept
abstract as a type parameter. -/
structure FullState (σ : Type) where
  user : σ
  workspace : σ
deriving DecidableEq

/-- The Redux store seen through the EnhancedStore interface the panel
uses: its current state. -/
structure EnhancedStore (σ : Type) where
  state : FullState σ
deriving DecidableEq

/-- store.getState(). -/
def EnhancedStore.getState {σ : Type} (s : EnhancedStore σ) : FullState σ :=
  s.state

/-- Modelled from the spec: the messagesToWebview constructors of
src/panels/message.ts (file not in the sources).  A tagged payload:
reloadWebview carries the full store state, syncData carries one slice
state. -/
inductive ToWebviewMsg (σ : Type) where
  | reloadWebview (payload : FullState σ)
  | syncData (payload : σ)
deriving DecidableEq

/-- The disposables the panel registers: the onDidDispose subscription and
the onDidReceiveMessage subscription, plus a case for arbitrary further
disposables so that disposal is modelled for any list. -/
inductive Disp where
  | didDisposeSub
  | didReceiveMessageSub
  | ext (n : Nat)
deriving DecidableEq

/-- The vscode ViewColumn values the panel code uses (Beside for both
creation and reveal), plus representatives of the other columns. -/
inductive ViewColumn where
  | One
  | Two
  | Beside
  | Active
deriving DecidableEq

/-- The state of an underlying vscode WebviewPanel as far as the panel
class observes and mutates it: disposed and active flags, whether the
webview html was set, and the messages posted to the webview. -/
structure WebviewPanelState (σ : Type) where
  disposed : Bool
  active : Bool
  htmlSet : Bool
  posted : List (ToWebviewMsg σ)
  viewType : String
  title : String
deriving DecidableEq

/-- A HelloWorldPanel instance: its webview panel and its private
disposables array. -/
structure HWInstance (σ : Type) where
  panel : WebviewPanelState σ
  disposables : List Disp
deriving DecidableEq

/-- The global state the class operates on: the static currentPanel
field, a count of live (created and not yet disposed) webview panels, a
count of createWebviewPanel calls, and logs of the reveal calls and of
the dispose() calls made on registered disposables. -/
structure Sys (σ : Type) where
  currentPanel : Option (HWInstance σ)
  livePanels : Nat
  createdCount : Nat
  revealCalls : List ViewColumn
  disposeCalls : List Disp
deriving DecidableEq

/-- One iteration bound for the dispose loop of HelloWorldPanel.dispose:
while the disposables array is nonempty, pop its last element and call
dispose() on it.  The fuel is the length of the array, which is exactly
the number of iterations the loop performs. -/
def drainLoop : Nat → List Disp → List Disp → List Disp × List Disp
  | 0, ds, calls => (ds, calls)
  | fuel + 1, ds, calls =>
    match ds.getLast? with
    | none => (ds, calls)
    | some d => drainLoop fuel ds.dropLast (calls ++ [d])

/-- Lines 123 to 128 of HelloWorldPanel.ts: the while loop popping and
disposing every disposable.  Returns the final array and the updated
dispose-call log. -/
def drainDisposables (ds : List Disp) (calls : List Disp) : List Disp × List Disp :=
  drainLoop ds.length ds calls

/-- The body of HelloWorldPanel.dispose re-entered from the onDidDispose
event while the underlying panel is already disposed, so that the nested
panel.dispose() call is a no-op and fires no event: set currentPanel to
undefined, then drain the disposables. -/
def disposeInner {σ : Type} (s : Sys σ) (inst : HWInstance σ) :
    Sys σ × HWInstance σ :=
  let s1 := { s with currentPanel := none }
  let r := drainDisposables inst.disposables s1.disposeCalls
  ({ s1 with disposeCalls := r.2 }, { inst with disposables := r.1 })

/-- Lines 116 to 129 of HelloWorldPanel.ts: HelloWorldPanel.dispose.  Set
currentPanel to undefined; dispose the underlying webview panel, which,
when the panel was not yet disposed, synchronously fires the onDidDispose
event whose registered listener re-enters this very method; then drain the
disposables array. -/
def HWInstance.dispose {σ : Type} (s : Sys σ) (inst : HWInstance σ) :
    Sys σ × HWInstance σ :=
  let s1 := { s with currentPanel := none }
  if inst.panel.disposed then
    let r := drainDisposables inst.disposables s1.disposeCalls
    ({ s1 with disposeCalls := r.2 }, { inst with disposables := r.1 })
  else
    let inst2 := { inst with panel := { inst.panel with disposed := true, active := false } }
    let s2 := { s1 with livePanels := s1.livePanels - 1 }
    let p :=
      if Disp.didDisposeSub ∈ inst2.disposables then disposeInner s2 inst2
      else (s2, inst2)
    let r := drainDisposables p.2.disposables p.1.disposeCalls
    ({ p.1 with disposeCalls := r.2 }, { p.2 with disposables := r.1 })

/-- Lines 104 to 107 of HelloWorldPanel.ts: post a reloadWebview message
carrying store.getState() to the webview. -/
def HWInstance.reloadWebview {σ : Type} (inst : HWInstance σ)
    (store : EnhancedStore σ) : HWInstance σ :=
  { inst with panel :=
      { inst.panel with posted :=
          inst.panel.posted ++ [ToWebviewMsg.reloadWebview store.getState] } }

/-- Lines 109 to 111 of HelloWorldPanel.ts: post a syncData message
carrying the new slice state to the webview. -/
def HWInstance.updateWebview {σ : Type} (inst : HWInstance σ)
    (newSliceState : σ) : HWInstance σ :=
  { inst with panel :=
      { inst.panel with posted :=
          inst.panel.posted ++ [ToWebviewMsg.syncData newSliceState] } }

/-- Lines 38 to 54 of HelloWorldPanel.ts: the private constructor.
Register the onDidDispose listener into the disposables, set the webview
html, register the onDidReceiveMessage listener into the disposables, and
post the initial reloadWebview message via reloadWebview(). -/
def construct {σ : Type} (panel : WebviewPanelState σ)
    (store : EnhancedStore σ) : HWInstance σ :=
  let inst0 : HWInstance σ := { panel := panel, disposables := [] }
  let inst1 := { inst0 with disposables := inst0.disposables ++ [Disp.didDisposeSub] }
  let inst2 := { inst1 with panel := { inst1.panel with htmlSet := true } }
  let inst3 := { inst2 with disposables := inst2.disposables ++ [Disp.didReceiveMessageSub] }
  inst3.reloadWebview store

/-- Lines 75 to 94 of HelloWorldPanel.ts: window.createWebviewPanel with
view type showVscodeTodoWebview, title Todo, in the Beside column; the new
panel starts live, shown and active, with no html set and nothing posted. -/
def freshPanel (σ : Type) : WebviewPanelState σ where
  disposed := false
  active := true
  htmlSet := false
  posted := []
  viewType := "showVscodeTodoWebview"
  title := "Todo"

/-- Lines 62 to 97 of HelloWorldPanel.ts: HelloWorldPanel.render.  If a
current panel exists and its webview panel is active, dispose that webview
panel (which fires the onDidDispose event, re-entering dispose on the
instance, when the subscription is registered); if it exists but is not
active, reveal it in the Beside column; otherwise create a fresh webview
panel, construct a HelloWorldPanel on it and assign currentPanel. -/
def render {σ : Type} (store : EnhancedStore σ) (s : Sys σ) : Sys σ :=
  match s.currentPanel with
  | some cp =>
    if cp.panel.active then
      if cp.panel.disposed then s
      else
        let cp2 := { cp with panel := { cp.panel with disposed := true, active := false } }
        let s2 := { s with currentPanel := some cp2, livePanels := s.livePanels - 1 }
        if Disp.didDisposeSub ∈ cp2.disposables then (disposeInner s2 cp2).1
        else s2
    else
      { s with currentPanel := some { cp with panel := { cp.panel with active := true } },
               revealCalls := s.revealCalls ++ [ViewColumn.Beside] }
  | none =>
    let inst := construct (freshPanel σ) store
    { s with currentPanel := some inst,
             livePanels := s.livePanels + 1,
             createdCount := s.createdCount + 1 }

/-- The at-most-one-live-panel invariant: never more than one live webview
panel, none when currentPanel is undefined, and none when the current
panel has already been disposed. -/
def PanelInv {σ : Type} (s : Sys σ) : Prop :=
  s.livePanels ≤ 1 ∧
  (s.currentPanel = none → s.livePanels = 0) ∧
  (∀ cp, s.currentPanel = some cp → cp.panel.disposed = true → s.livePanels = 0)

/-- The dispose loop, run with fuel equal to the array length, empties the
array and appends every element, last first, to the dispose-call log. -/
theorem drainLoop_spec (ds : List Disp) :
    ∀ calls : List Disp, drainLoop ds.length ds calls = ([], calls ++ ds.reverse) := by
  induction ds using List.reverseRecOn with
  | nil => intro calls; simp [drainLoop]
  | append_singleton l a ih =>
    intro calls
    rw [List.length_append, List.length_singleton, drainLoop]
    simp only [List.getLast?_concat, List.dropLast_concat]
    rw [ih (calls ++ [a])]
    simp

/-- The while loop of HelloWorldPanel.dispose empties the disposables
array and calls dispose() on every element, last first. -/
theorem drainDisposables_spec (ds calls : List Disp) :
    drainDisposables ds calls = ([], calls ++ ds.reverse) :=
  drainLoop_spec ds calls

/-- Net effect of HelloWorldPanel.dispose on the global state and the
instance, covering the re-entrant onDidDispose path: currentPanel is
cleared, one live panel is retired unless the underlying panel was already
disposed, every registered disposable is disposed (last first), the
disposables array ends empty and the underlying panel ends disposed. -/
theorem dispose_characterization {σ : Type} (s : Sys σ) (inst : HWInstance σ) :
    HWInstance.dispose s inst =
      ({ s with currentPanel := none,
                livePanels := if inst.panel.disposed then s.livePanels else s.livePanels - 1,
                disposeCalls := s.disposeCalls ++ inst.disposables.reverse },
       { inst with disposables := [],
                   panel := { inst.panel with
                                disposed := true,
                                active := if inst.panel.disposed then inst.panel.active
                                          else false } }) := by
  cases s with
  | mk scp slp scc srv sdc =>
    cases inst with
    | mk pnl ds =>
      cases pnl with
      | mk pd pa ph pp pv pt =>
        cases pd
        · simp [HWInstance.dispose, disposeInner, drainDisposables_spec]
          split_ifs <;> simp [drainDisposables_spec]
        · simp [HWInstance.dispose, disposeInner, drainDisposables_spec]

/-- render on an empty currentPanel: create a fresh webview panel,
construct the instance on it and assign currentPanel. -/
theorem render_none_eq {σ : Type} (store : EnhancedStore σ) (s : Sys σ)
    (h : s.currentPanel = none) :
    render store s
      = { s with currentPanel := some (construct (freshPanel σ) store),
                 livePanels := s.livePanels + 1,
                 createdCount := s.createdCount + 1 } := by
  simp only [render, h]

/-- render on an existing, inactive current panel: reveal it in the
Beside column. -/
theorem render_reveal_eq {σ : Type} (store : EnhancedStore σ) (s : Sys σ)
    (cp : HWInstance σ) (h : s.currentPanel = some cp)
    (ha : cp.panel.active = false) :
    render store s
      = { s with currentPanel := some { cp with panel := { cp.panel with active := true } },
                 revealCalls := s.revealCalls ++ [ViewColumn.Beside] } := by
  simp only [render, h, ha]
  simp

/-- render on an existing, active, already-disposed current panel: the
nested panel.dispose() call is a no-op. -/
theorem render_active_disposed_eq {σ : Type} (store : EnhancedStore σ) (s : Sys σ)
    (cp : HWInstance σ) (h : s.currentPanel = some cp)
    (ha : cp.panel.active = true) (hd : cp.panel.disposed = true) :
    render store s = s := by
  simp only [render, h, ha, hd]
  simp

/-- render on an existing, active, live current panel whose onDidDispose
subscription is registered: the panel is disposed and the event re-enters
HelloWorldPanel.dispose, clearing currentPanel and draining the
disposables. -/
theorem render_active_live_mem_eq {σ : Type} (store : EnhancedStore σ) (s : Sys σ)
    (cp : HWInstance σ) (h : s.currentPanel = some cp)
    (ha : cp.panel.active = true) (hd : cp.panel.disposed = false)
    (hm : Disp.didDisposeSub ∈ cp.disposables) :
    render store s
      = { s with currentPanel := none,
                 livePanels := s.livePanels - 1,
                 disposeCalls := s.disposeCalls ++ cp.disposables.reverse } := by
  simp only [render, h, ha, hd]
  simp only [Bool.false_eq_true, if_false, if_true]
  rw [if_pos]
  · simp only [disposeInner, drainDisposables_spec]
  · exact hm

/-- render on an existing, active, live current panel whose onDidDispose
subscription is not registered: the panel is disposed and nothing else
happens. -/
theorem render_active_live_nomem_eq {σ : Type} (store : EnhancedStore σ) (s : Sys σ)
    (cp : HWInstance σ) (h : s.currentPanel = some cp)
    (ha : cp.panel.active = true) (hd : cp.panel.disposed = false)
    (hm : Disp.didDisposeSub ∉ cp.disposables) :
    render store s
      = { s with currentPanel :=
                   some { cp with panel := { cp.panel with disposed := true, active := false } },
                 livePanels := s.livePanels - 1 } := by
  simp only [render, h, ha, hd]
  simp only [Bool.false_eq_true, if_false, if_true]
  rw [if_neg]
  exact hm

/-- C7: after HelloWorldPanel.dispose returns, currentPanel is undefined,
the underlying webview panel is disposed, the disposables array is empty
and dispose() was called on every previously registered disposable. -/
theorem dispose_clears_panel_and_disposables {σ : Type} (s : Sys σ) (inst : HWInstance σ) :
    (HWInstance.dispose s inst).1.currentPanel = none ∧
    (HWInstance.dispose s inst).2.panel.disposed = true ∧
    (HWInstance.dispose s inst).2.disposables = [] ∧
    (HWInstance.dispose s inst).1.disposeCalls
      = s.disposeCalls ++ inst.disposables.reverse := by
  rw [dispose_characterization]
  exact ⟨rfl, rfl, rfl, rfl⟩

/-- C8: HelloWorldPanel.dispose is idempotent; a second call right after
the first one changes nothing. -/
theorem dispose_idempotent {σ : Type} (s : Sys σ) (inst : HWInstance σ) :
    HWInstance.dispose (HWInstance.dispose s inst).1 (HWInstance.dispose s inst).2
      = HWInstance.dispose s inst := by
  rw [dispose_characterization s inst, dispose_characterization]
  cases s with
  | mk scp slp scc srv sdc =>
    cases inst with
    | mk pnl ds =>
      cases pnl with
      | mk pd pa ph pp pv pt =>
        cases pd <;> simp

/-- C4: at most one panel at any time.  render creates a webview panel
only when currentPanel is undefined, render preserves the single-live-
panel invariant, and dispose of the current panel preserves it too. -/
theorem render_and_dispose_preserve_single_panel {σ : Type} (store : EnhancedStore σ) :
    (∀ s : Sys σ, s.currentPanel ≠ none →
        (render store s).createdCount = s.createdCount) ∧
    (∀ s : Sys σ, PanelInv s → PanelInv (render store s)) ∧
    (∀ (s : Sys σ) (cp : HWInstance σ), PanelInv s → s.currentPanel = some cp →
        PanelInv (HWInstance.dispose s cp).1) := by
  refine ⟨?_, ?_, ?_⟩
  · intro s hne
    rcases hc : s.currentPanel with _ | cp
    · exact absurd hc hne
    · rcases ha : cp.panel.active with _ | _
      · rw [render_reveal_eq store s cp hc ha]
      · rcases hd : cp.panel.disposed with _ | _
        · by_cases hm : Disp.didDisposeSub ∈ cp.disposables
          · rw [render_active_live_mem_eq store s cp hc ha hd hm]
          · rw [render_active_live_nomem_eq store s cp hc ha hd hm]
        · rw [render_active_disposed_eq store s cp hc ha hd]
  · intro s hinv
    obtain ⟨h1, h2, h3⟩ := hinv
    rcases hc : s.currentPanel with _ | cp
    · rw [render_none_eq store s hc]
      have h0 : s.livePanels = 0 := h2 hc
      refine ⟨?_, ?_, ?_⟩
      · show s.livePanels + 1 ≤ 1
        omega
      · intro hnone
        exact Option.noConfusion hnone
      · intro cp' hcp' hd'
        have heq : construct (freshPanel σ) store = cp' := Option.some.inj hcp'
        rw [← heq] at hd'
        simp [construct, freshPanel, HWInstance.reloadWebview, freshPanel] at hd'
    · rcases ha : cp.panel.active with _ | _
      · rw [render_reveal_eq store s cp hc ha]
        refine ⟨h1, ?_, ?_⟩
        · intro hnone
          exact Option.noConfusion hnone
        · intro cp' hcp' hd'
          have heq : { cp with panel := { cp.panel with active := true } } = cp' :=
            Option.some.inj hcp'
          rw [← heq] at hd'
          exact h3 cp hc hd'
      · rcases hd : cp.panel.disposed with _ | _
        · by_cases hm : Disp.didDisposeSub ∈ cp.disposables
          · rw [render_active_live_mem_eq store s cp hc ha hd hm]
            refine ⟨?_, ?_, ?_⟩
            · show s.livePanels - 1 ≤ 1
              omega
            · intro _
              show s.livePanels - 1 = 0
              omega
            · intro cp' hcp' _
              exact Option.noConfusion hcp'
          · rw [render_active_live_nomem_eq store s cp hc ha hd hm]
            refine ⟨?_, ?_, ?_⟩
            · show s.livePanels - 1 ≤ 1
              omega
            · intro hnone
              exact Option.noConfusion hnone
            · intro cp' hcp' _
              show s.livePanels - 1 = 0
              omega
        · rw [render_active_disposed_eq store s cp hc ha hd]
          exact ⟨h1, h2, h3⟩
  · intro s cp hinv hc
    obtain ⟨h1, h2, h3⟩ := hinv
    rw [dispose_characterization]
    have hlive : (if cp.panel.disposed = true then s.livePanels else s.livePanels - 1) = 0 := by
      rcases hd : cp.panel.disposed with _ | _
      · simp only [Bool.false_eq_true, if_false]
        omega
      · simp only [if_pos]
        exact h3 cp hc hd
    refine ⟨?_, fun _ => ?_, ?_⟩
    · show (if cp.panel.disposed = true then s.livePanels else s.livePanels - 1) ≤ 1
      rw [hlive]
      omega
    · exact hlive
    · intro cp' hcp' _
      exact Option.noConfusion hcp'

/-- C5: render follows exactly one of three branches.  With an active
current panel the webview panel is disposed (no creation, no reveal);
with an inactive current panel it is revealed in the Beside column;
with no current panel a fresh panel is created and assigned. -/
theorem render_three_branches {σ : Type} (store : EnhancedStore σ) (s : Sys σ) :
    (∀ cp, s.currentPanel = some cp → cp.panel.active = true →
        (render store s).createdCount = s.createdCount ∧
        (render store s).revealCalls = s.revealCalls ∧
        ((render store s).currentPanel = none ∨
         ∃ cp2, (render store s).currentPanel = some cp2 ∧ cp2.panel.disposed = true)) ∧
    (∀ cp, s.currentPanel = some cp → cp.panel.active = false →
        render store s
          = { s with currentPanel := some { cp with panel := { cp.panel with active := true } },
                     revealCalls := s.revealCalls ++ [ViewColumn.Beside] }) ∧
    (s.currentPanel = none →
        render store s
          = { s with currentPanel := some (construct (freshPanel σ) store),
                     livePanels := s.livePanels + 1,
                     createdCount := s.createdCount + 1 }) := by
  refine ⟨?_, ?_, ?_⟩
  · intro cp hc ha
    rcases hd : cp.panel.disposed with _ | _
    · by_cases hm : Disp.didDisposeSub ∈ cp.disposables
      · rw [render_active_live_mem_eq store s cp hc ha hd hm]
        exact ⟨rfl, rfl, Or.inl rfl⟩
      · rw [render_active_live_nomem_eq store s cp hc ha hd hm]
        exact ⟨rfl, rfl, Or.inr ⟨_, rfl, rfl⟩⟩
    · rw [render_active_disposed_eq store s cp hc ha hd]
      exact ⟨rfl, rfl, Or.inr ⟨cp, hc, hd⟩⟩
  · intro cp hc ha
    exact render_reveal_eq store s cp hc ha
  · intro hc
    exact render_none_eq store s hc

/-- C1: a message with a recognized scope and a recognized type makes the
listener dispatch exactly one action, the same-named creator of the
scope-selected action set applied to the message payload, with no error
log. -/
theorem dispatch_known_message_uses_same_named_creator {α : Type}
    (m : Message α) (sc : TodoScope) (t : TodoActionName)
    (hs : m.scope = RawScope.known sc) (ht : m.type = RawType.known t) :
    (webviewMessageHandler m).dispatched
      = [applyCreator (scopeActionSet α sc) t m.payload] ∧
    (webviewMessageHandler m).errors = [] := by
  cases sc <;> cases t <;>
    simp [webviewMessageHandler, selectStoreActions, hs, ht, scopeActionSet,
          applyCreator, userActions, workspaceActions]

/-- Witness for the C1 theorem at a concrete user-scope addTodo
message. -/
theorem dispatch_known_message_uses_same_named_creator_witness :
    (⟨RawScope.known TodoScope.user, RawType.known TodoActionName.addTodo,
        5, 0⟩ : Message Nat).scope = RawScope.known TodoScope.user ∧
    (⟨RawScope.known TodoScope.user, RawType.known TodoActionName.addTodo,
        5, 0⟩ : Message Nat).type = RawType.known TodoActionName.addTodo ∧
    ((webviewMessageHandler (⟨RawScope.known TodoScope.user,
        RawType.known TodoActionName.addTodo, 5, 0⟩ : Message Nat)).dispatched
      = [applyCreator (scopeActionSet Nat TodoScope.user) TodoActionName.addTodo 5] ∧
     (webviewMessageHandler (⟨RawScope.known TodoScope.user,
        RawType.known TodoActionName.addTodo, 5, 0⟩ : Message Nat)).errors = []) :=
  ⟨rfl, rfl, dispatch_known_message_uses_same_named_creator _ TodoScope.user
      TodoActionName.addTodo rfl rfl⟩

/-- C2: every action the listener dispatches carries the scope of the
inbound message; an action of the other scope is never dispatched. -/
theorem dispatched_action_scope_matches_message_scope {α : Type}
    (m : Message α) (a : StoreAction α)
    (h : a ∈ (webviewMessageHandler m).dispatched) :
    m.scope = RawScope.known a.scope := by
  obtain ⟨ms, mt, mp, me⟩ := m
  rcases ms with sc | tag
  · rcases mt with t | tg
    · cases sc <;> cases t <;>
        simp_all [webviewMessageHandler, selectStoreActions, userActions,
                  workspaceActions]
    · cases sc <;> simp_all [webviewMessageHandler, selectStoreActions]
  · simp_all [webviewMessageHandler, selectStoreActions]

/-- Witness for the C2 theorem at a concrete workspace-scope editTodo
message. -/
theorem dispatched_action_scope_matches_message_scope_witness :
    (⟨TodoScope.workspace, TodoActionName.editTodo, 9⟩ : StoreAction Nat)
        ∈ (webviewMessageHandler (⟨RawScope.known TodoScope.workspace,
            RawType.known TodoActionName.editTodo, 9, 1⟩ : Message Nat)).dispatched ∧
    (⟨RawScope.known TodoScope.workspace, RawType.known TodoActionName.editTodo,
        9, 1⟩ : Message Nat).scope
      = RawScope.known
          (⟨TodoScope.workspace, TodoActionName.editTodo, 9⟩ : StoreAction Nat).scope :=
  ⟨by decide, dispatched_action_scope_matches_message_scope _ _ (by decide)⟩

/-- The reducer used by the C3 witness: fold a payload into a running
sum. -/
def addPayload : Nat → StoreAction Nat → Nat :=
  fun st a => st + a.payload

/-- C3: an unrecognized message (scope outside the enum, or type outside
the five known actions) produces no dispatch, exactly one console error
log, and leaves any store state unchanged under any reducer. -/
theorem unrecognized_message_only_logs {α σ : Type} (m : Message α)
    (h : (m.scope ≠ RawScope.known TodoScope.user ∧
          m.scope ≠ RawScope.known TodoScope.workspace) ∨
         (m.type ≠ RawType.known TodoActionName.addTodo ∧
          m.type ≠ RawType.known TodoActionName.deleteTodo ∧
          m.type ≠ RawType.known TodoActionName.toggleTodo ∧
          m.type ≠ RawType.known TodoActionName.editTodo ∧
          m.type ≠ RawType.known TodoActionName.reorderTodo)) :
    (webviewMessageHandler m).dispatched = [] ∧
    (webviewMessageHandler m).errors.length = 1 ∧
    ∀ (red : σ → StoreAction α → σ) (st : σ),
      applyDispatched red st (webviewMessageHandler m) = st := by
  obtain ⟨ms, mt, mp, me⟩ := m
  rcases h with ⟨h1, h2⟩ | ⟨h1, h2, h3, h4, h5⟩
  · rcases ms with sc | tag
    · cases sc
      · exact absurd rfl h1
      · exact absurd rfl h2
    · exact ⟨rfl, rfl, fun red st => rfl⟩
  · rcases ms with sc | tag
    · rcases mt with t | tg
      · cases t
        · exact absurd rfl h1
        · exact absurd rfl h2
        · exact absurd rfl h3
        · exact absurd rfl h4
        · exact absurd rfl h5
      · cases sc <;> exact ⟨rfl, rfl, fun red st => rfl⟩
    · exact ⟨rfl, rfl, fun red st => rfl⟩

/-- Witness for the C3 theorem at a concrete message with an out-of-enum
scope. -/
theorem unrecognized_message_only_logs_witness :
    ((⟨RawScope.unknown 7, RawType.known TodoActionName.addTodo,
        0, 0⟩ : Message Nat).scope ≠ RawScope.known TodoScope.user ∧
     (⟨RawScope.unknown 7, RawType.known TodoActionName.addTodo,
        0, 0⟩ : Message Nat).scope ≠ RawScope.known TodoScope.workspace) ∧
    (webviewMessageHandler (⟨RawScope.unknown 7,
        RawType.known TodoActionName.addTodo, 0, 0⟩ : Message Nat)).dispatched = [] ∧
    applyDispatched addPayload 3
      (webviewMessageHandler (⟨RawScope.unknown 7,
          RawType.known TodoActionName.addTodo, 0, 0⟩ : Message Nat)) = 3 :=
  ⟨⟨by decide, by decide⟩,
   (@unrecognized_message_only_logs Nat Nat
      (⟨RawScope.unknown 7, RawType.known TodoActionName.addTodo, 0, 0⟩ : Message Nat)
      (Or.inl ⟨by decide, by decide⟩)).1,
   (@unrecognized_message_only_logs Nat Nat
      (⟨RawScope.unknown 7, RawType.known TodoActionName.addTodo, 0, 0⟩ : Message Nat)
      (Or.inl ⟨by decide, by decide⟩)).2.2 addPayload 3⟩

/-- C6: updateWebview posts exactly one syncData message whose payload is
the given slice state, unmodified. -/
theorem updateWebview_posts_one_syncData {σ : Type} (inst : HWInstance σ)
    (newSliceState : σ) :
    (inst.updateWebview newSliceState).panel.posted
      = inst.panel.posted ++ [ToWebviewMsg.syncData newSliceState] :=
  rfl

/-- C9: the constructor, run on a freshly created webview panel, posts
exactly one reloadWebview message whose payload is the full store state
returned by store.getState(). -/
theorem construct_posts_reloadWebview_full_state {σ : Type}
    (store : EnhancedStore σ) :
    (construct (freshPanel σ) store).panel.posted
      = [ToWebviewMsg.reloadWebview store.getState] :=
  rfl

/-- C10: the message handler is deterministic and reads nothing of the
message beyond its scope, type and payload: two messages agreeing on
those three fields produce identical handler effects. -/
theorem handler_depends_only_on_scope_type_payload {α : Type}
    (m1 m2 : Message α) (hs : m1.scope = m2.scope) (ht : m1.type = m2.type)
    (hp : m1.payload = m2.payload) :
    webviewMessageHandler m1 = webviewMessageHandler m2 := by
  obtain ⟨s1, t1, p1, e1⟩ := m1
  obtain ⟨s2, t2, p2, e2⟩ := m2
  obtain rfl : s1 = s2 := hs
  obtain rfl : t1 = t2 := ht
  obtain rfl : p1 = p2 := hp
  rcases s1 with sc | tag
  · cases sc <;> rcases t1 with t | tg <;> first | (cases t <;> rfl) | rfl
  · rfl

/-- Witness for the C10 theorem: two concrete messages differing only in
an extra property get identical handler effects. -/
theorem handler_depends_only_on_scope_type_payload_witness :
    (⟨RawScope.known TodoScope.user, RawType.known TodoActionName.toggleTodo,
        2, 0⟩ : Message Nat).scope
      = (⟨RawScope.known TodoScope.user, RawType.known TodoActionName.toggleTodo,
            2, 99⟩ : Message Nat).scope ∧
    (⟨RawScope.known TodoScope.user, RawType.known TodoActionName.toggleTodo,
        2, 0⟩ : Message Nat).type
      = (⟨RawScope.known TodoScope.user, RawType.known TodoActionName.toggleTodo,
            2, 99⟩ : Message Nat).type ∧
    (⟨RawScope.known TodoScope.user, RawType.known TodoActionName.toggleTodo,
        2, 0⟩ : Message Nat).payload
      = (⟨RawScope.known TodoScope.user, RawType.known TodoActionName.toggleTodo,
            2, 99⟩ : Message Nat).payload ∧
    webviewMessageHandler (⟨RawScope.known TodoScope.user,
        RawType.known TodoActionName.toggleTodo, 2, 0⟩ : Message Nat)
      = webviewMessageHandler (⟨RawScope.known TodoScope.user,
          RawType.known TodoActionName.toggleTodo, 2, 99⟩ : Message Nat) :=
  ⟨rfl, rfl, rfl, handler_depends_only_on_scope_type_payload _ _ rfl rfl rfl⟩

/-- Witness for the C4 theorem: the invariant holds for the empty state
and is preserved by a render that creates the panel. -/
theorem render_and_dispose_preserve_single_panel_witness :
    PanelInv (⟨none, 0, 0, [], []⟩ : Sys Nat) ∧
    PanelInv (render (⟨⟨0, 0⟩⟩ : EnhancedStore Nat) (⟨none, 0, 0, [], []⟩ : Sys Nat)) :=
  ⟨⟨by decide, fun _ => rfl, fun cp h _ => Option.noConfusion h⟩,
   (render_and_dispose_preserve_single_panel (⟨⟨0, 0⟩⟩ : EnhancedStore Nat)).2.1
     (⟨none, 0, 0, [], []⟩ : Sys Nat)
     ⟨by decide, fun _ => rfl, fun cp h _ => Option.noConfusion h⟩⟩

/-- Witness for the C5 theorem: on an empty state render takes the
creation branch. -/
theorem render_three_branches_witness :
    (⟨none, 0, 0, [], []⟩ : Sys Nat).currentPanel = none ∧
    render (⟨⟨0, 0⟩⟩ : EnhancedStore Nat) (⟨none, 0, 0, [], []⟩ : Sys Nat)
      = { (⟨none, 0, 0, [], []⟩ : Sys Nat) with
            currentPanel := some (construct (freshPanel Nat) (⟨⟨0, 0⟩⟩ : EnhancedStore Nat)),
            livePanels := 0 + 1,
            createdCount := 0 + 1 } :=
  ⟨rfl, (render_three_branches (⟨⟨0, 0⟩⟩ : EnhancedStore Nat)
      (⟨none, 0, 0, [], []⟩ : Sys Nat)).2.2 rfl⟩

end VscodeTodo
